import Mathlib

/-!
Verification of the Spawner contract of goma-client (src/client/spawner.h).

The header declares the abstract class `devtools_goma::Spawner`: its
configuration setters are concrete inline functions, embedded here as pure
state transformers on `SpawnerState`; its lifecycle operations (`Run`, `Kill`,
`Wait`, `IsChildRunning`) are pure virtual, so their documented contracts and
the lifecycle state machine of the specification are embedded as explicit
definitions over a `ProcessState` type.
-/

namespace devtools_goma

/-- Platform selector: spawner.h chooses the `kInvalidPid` constant with
`#ifdef _WIN32` (lines 40-48). -/
inductive Platform where
  | windows
  | posix
deriving DecidableEq

/-- Wait policies of spawner.h lines 31-35. -/
inductive WaitPolicy where
  | NO_HANG
  | WAIT_INFINITE
  | NEED_KILL
deriving DecidableEq

/-- Console output options of spawner.h lines 36-39. -/
inductive ConsoleOutputOption where
  | MERGE_STDOUT_STDERR
  | STDOUT_ONLY
deriving DecidableEq

/-- Invalid pid sentinel of spawner.h lines 40-48: 0 on Windows, -1 otherwise. -/
def kInvalidPid : Platform → Int
  | Platform.windows => 0
  | Platform.posix => -1

/-- The configuration fields of `Spawner` (spawner.h lines 134-138). The
`console_output_` field is a `string` pointer in the source; it is embedded as
an optional pointer value, with `none` standing for `NULL`. -/
structure SpawnerState where
  stdin_filename_ : String
  stdout_filename_ : String
  stderr_filename_ : String
  console_output_ : Option Nat
  detach_ : Bool
  umask_ : Int
  console_output_option_ : ConsoleOutputOption
deriving DecidableEq

/-- The protected constructor `Spawner()` (spawner.h lines 130-132): the three
filename strings are default-constructed empty, `console_output_` is `NULL`,
`detach_` is `false`, `umask_` is `-1`, and `console_output_option_` is
`MERGE_STDOUT_STDERR`. -/
def initialState : SpawnerState :=
  { stdin_filename_ := ""
    stdout_filename_ := ""
    stderr_filename_ := ""
    console_output_ := none
    detach_ := false
    umask_ := -1
    console_output_option_ := ConsoleOutputOption.MERGE_STDOUT_STDERR }

/-- `Spawner::SetFileRedirection` (spawner.h lines 58-66): stores the three
filenames and the console output option. -/
def SetFileRedirection (s : SpawnerState)
    (stdin_filename stdout_filename stderr_filename : String)
    (o : ConsoleOutputOption) : SpawnerState :=
  { s with
    stdin_filename_ := stdin_filename
    stdout_filename_ := stdout_filename
    stderr_filename_ := stderr_filename
    console_output_option_ := o }

/-- `Spawner::SetConsoleOutputBuffer` (spawner.h lines 73-77): stores the
buffer pointer and the console output option. -/
def SetConsoleOutputBuffer (s : SpawnerState)
    (console_output : Option Nat) (o : ConsoleOutputOption) : SpawnerState :=
  { s with
    console_output_ := console_output
    console_output_option_ := o }

/-- `Spawner::SetDetach` (spawner.h line 81). -/
def SetDetach (s : SpawnerState) (detach : Bool) : SpawnerState :=
  { s with detach_ := detach }

/-- `Spawner::SetUmask` (spawner.h line 85): stores the value unconditionally. -/
def SetUmask (s : SpawnerState) (umask : Int) : SpawnerState :=
  { s with umask_ := umask }

/-- File-based redirection is configured when some redirection filename is
nonempty (spawner.h lines 51-55: a non-empty filename is used as stdin,
stdout, or stderr of the child). -/
def fileRedirectionConfigured (s : SpawnerState) : Bool :=
  !(s.stdin_filename_ == "" && s.stdout_filename_ == "" && s.stderr_filename_ == "")

/-- Buffer-based redirection is configured when the `console_output_` pointer
is not `NULL` (spawner.h lines 68-77). -/
def bufferRedirectionConfigured (s : SpawnerState) : Bool :=
  s.console_output_.isSome

/-- How a call to `Run` ends for the caller: either `Run` returns a value, or
the calling process dies and `Run` never returns. -/
inductive RunResult where
  | returns (v : Int)
  | dies
deriving DecidableEq

/-- The three spawn outcomes distinguished by the documented contract of
`Spawner::Run` (spawner.h lines 87-89). -/
inductive SpawnOutcome where
  | success (pid : Int)
  | nonFatalError
  | fatalError
deriving DecidableEq

/-- The documented contract of `Spawner::Run` (spawner.h lines 87-93):
"Returns a child process id on success. Returns kInvalidPid on non fatal
error, and dies with fatal error." The implementations are platform backends
outside this header. -/
def runContract (platform : Platform) : SpawnOutcome → RunResult
  | SpawnOutcome.success pid => RunResult.returns pid
  | SpawnOutcome.nonFatalError => RunResult.returns (kInvalidPid platform)
  | SpawnOutcome.fatalError => RunResult.dies

/-- The documented contract of `Spawner::SetUmask` (spawner.h lines 83-84):
"If |umask| is positive value, it is used as umask of the process. Note: this
feature only works on SpawnerPosix." -/
def umaskApplied : Platform → SpawnerState → Bool
  | Platform.posix, s => decide (0 < s.umask_)
  | Platform.windows, _ => false

/-- Modelled from the spec: a real process id returned by a successful `Run`.
The backends are not under src/; per the data model (ProcessIdentity), real
OS process ids on both platforms are positive integers. -/
def isRealPid (pid : Int) : Bool :=
  decide (0 < pid)

/-- Modelled from the spec: the process lifecycle states of section 4.3
(Unstarted, Running, and the terminal states Exited, Killed, Signaled); the
backends implementing the lifecycle are not under src/. -/
inductive ProcessState where
  | Unstarted
  | Running
  | Exited
  | Killed
  | Signaled
deriving DecidableEq

/-- A terminal lifecycle state (spec section 4.3). -/
def isTerminal : ProcessState → Bool
  | ProcessState.Exited => true
  | ProcessState.Killed => true
  | ProcessState.Signaled => true
  | _ => false

/-- Modelled from the spec: `IsChildRunning`, the non-blocking liveness query
(spawner.h line 110 declares it; the implementation is not under src/). -/
def isChildRunning (s : ProcessState) : Bool :=
  s == ProcessState.Running

/-- Modelled from the spec: `Kill` (spawner.h lines 95-99 declare it; the
implementation is not under src/). It requests termination when the process is
running; the returned Bool is true when the process was still running at the
time of the call, and the second component is the lifecycle state afterwards. -/
def kill : ProcessState → Bool × ProcessState
  | ProcessState.Running => (true, ProcessState.Killed)
  | s => (false, s)

/-- Modelled from the spec: `Wait` (spawner.h lines 101-107 declare it; the
implementation is not under src/). `outcome` is the terminal state the child
reaches when the call blocks until termination. NO_HANG polls the current
status, WAIT_INFINITE blocks until the child terminates, NEED_KILL kills a
running child and blocks until termination. The returned Bool is true when the
process is still running after the call. -/
def wait : WaitPolicy → ProcessState → ProcessState → Bool × ProcessState
  | WaitPolicy.NO_HANG, s, _ => (isChildRunning s, s)
  | WaitPolicy.WAIT_INFINITE, ProcessState.Running, outcome => (false, outcome)
  | WaitPolicy.WAIT_INFINITE, s, _ => (false, s)
  | WaitPolicy.NEED_KILL, ProcessState.Running, _ => (false, ProcessState.Killed)
  | WaitPolicy.NEED_KILL, s, _ => (false, s)

/-- Modelled from the spec: the lifecycle transition relation of section 4.3.
Unstarted goes to Running on a successful Run; Running goes to Exited, Killed,
or Signaled; the terminal states have no outgoing transitions. -/
inductive lifecycleStep : ProcessState → ProcessState → Prop where
  | runStarted : lifecycleStep ProcessState.Unstarted ProcessState.Running
  | exited : lifecycleStep ProcessState.Running ProcessState.Exited
  | killedByRequest : lifecycleStep ProcessState.Running ProcessState.Killed
  | signaledByOS : lifecycleStep ProcessState.Running ProcessState.Signaled

/-- Claim C10: a freshly constructed Spawner has the console output buffer
pointer NULL, the detach flag false, the umask -1, the console output option
MERGE_STDOUT_STDERR, and all three redirection filenames empty. -/
theorem initialState_defaults :
    initialState.console_output_ = none
    ∧ initialState.detach_ = false
    ∧ initialState.umask_ = -1
    ∧ initialState.console_output_option_ = ConsoleOutputOption.MERGE_STDOUT_STDERR
    ∧ initialState.stdin_filename_ = ""
    ∧ initialState.stdout_filename_ = ""
    ∧ initialState.stderr_filename_ = "" :=
  ⟨rfl, rfl, rfl, rfl, rfl, rfl, rfl⟩

/-- Claim C9: SetFileRedirection modifies only the three filenames and the
console output option, leaving the buffer pointer, detach flag, and umask
unchanged; SetConsoleOutputBuffer modifies only the buffer pointer and the
console output option, leaving the filenames, detach flag, and umask
unchanged; in particular, after calling both, both the filenames and the
buffer pointer remain set simultaneously. -/
theorem setter_frame_effects (s : SpawnerState) (fi fo fe : String)
    (o o2 : ConsoleOutputOption) (p : Option Nat) :
    (SetFileRedirection s fi fo fe o).console_output_ = s.console_output_
    ∧ (SetFileRedirection s fi fo fe o).detach_ = s.detach_
    ∧ (SetFileRedirection s fi fo fe o).umask_ = s.umask_
    ∧ (SetConsoleOutputBuffer s p o2).stdin_filename_ = s.stdin_filename_
    ∧ (SetConsoleOutputBuffer s p o2).stdout_filename_ = s.stdout_filename_
    ∧ (SetConsoleOutputBuffer s p o2).stderr_filename_ = s.stderr_filename_
    ∧ (SetConsoleOutputBuffer s p o2).detach_ = s.detach_
    ∧ (SetConsoleOutputBuffer s p o2).umask_ = s.umask_
    ∧ (SetConsoleOutputBuffer (SetFileRedirection s fi fo fe o) p o2).stdin_filename_ = fi
    ∧ (SetConsoleOutputBuffer (SetFileRedirection s fi fo fe o) p o2).stdout_filename_ = fo
    ∧ (SetConsoleOutputBuffer (SetFileRedirection s fi fo fe o) p o2).stderr_filename_ = fe
    ∧ (SetConsoleOutputBuffer (SetFileRedirection s fi fo fe o) p o2).console_output_ = p :=
  ⟨rfl, rfl, rfl, rfl, rfl, rfl, rfl, rfl, rfl, rfl, rfl, rfl⟩

/-- Claim C1 counterexample: the documented Run contract returns kInvalidPid
on a non-fatal error (the call returns, the process does not die), so
kInvalidPid is a recoverable error result, not reserved for a fatal path. -/
theorem run_returns_kInvalidPid_non_fatally :
    runContract Platform.posix SpawnOutcome.nonFatalError
      = RunResult.returns (kInvalidPid Platform.posix)
    ∧ runContract Platform.posix SpawnOutcome.nonFatalError ≠ RunResult.dies :=
  ⟨rfl, by decide⟩

/-- Claim C1 amended: on a fatal spawn error the caller process dies and Run
does not return; kInvalidPid is returned on non-fatal errors, as a
recoverable error result. -/
theorem run_contract_fatal_and_nonfatal (platform : Platform) :
    runContract platform SpawnOutcome.fatalError = RunResult.dies
    ∧ runContract platform SpawnOutcome.nonFatalError
        = RunResult.returns (kInvalidPid platform) :=
  ⟨rfl, rfl⟩

/-- Claim C2 counterexample: calling SetFileRedirection after
SetConsoleOutputBuffer is not rejected or flagged; it yields a state in which
file-based and buffer-based redirection are both configured, so both are
configured when Run executes. -/
theorem mixed_redirection_not_rejected :
    fileRedirectionConfigured
      (SetFileRedirection
        (SetConsoleOutputBuffer initialState (some 1)
          ConsoleOutputOption.MERGE_STDOUT_STDERR)
        "" "out" "" ConsoleOutputOption.MERGE_STDOUT_STDERR) = true
    ∧ bufferRedirectionConfigured
      (SetFileRedirection
        (SetConsoleOutputBuffer initialState (some 1)
          ConsoleOutputOption.MERGE_STDOUT_STDERR)
        "" "out" "" ConsoleOutputOption.MERGE_STDOUT_STDERR) = true := by
  constructor <;> decide

/-- Claim C2 amended: the setters perform no check and never fail; calling
SetFileRedirection after SetConsoleOutputBuffer, or vice versa, leaves both
file-based and buffer-based redirection configured when Run executes; the
mutual exclusion is only a documented caller obligation. -/
theorem mixed_redirection_both_configured (s : SpawnerState) (fi fo fe : String)
    (o o2 : ConsoleOutputOption) (ptr : Nat) (h : fo ≠ "") :
    fileRedirectionConfigured
        (SetFileRedirection (SetConsoleOutputBuffer s (some ptr) o) fi fo fe o2) = true
    ∧ bufferRedirectionConfigured
        (SetFileRedirection (SetConsoleOutputBuffer s (some ptr) o) fi fo fe o2) = true
    ∧ fileRedirectionConfigured
        (SetConsoleOutputBuffer (SetFileRedirection s fi fo fe o) (some ptr) o2) = true
    ∧ bufferRedirectionConfigured
        (SetConsoleOutputBuffer (SetFileRedirection s fi fo fe o) (some ptr) o2) = true := by
  have hfo : (fo == "") = false := beq_eq_false_iff_ne.mpr h
  simp [fileRedirectionConfigured, bufferRedirectionConfigured,
    SetFileRedirection, SetConsoleOutputBuffer, hfo]

/-- Witness for the amended Claim C2 at a concrete configuration. -/
theorem mixed_redirection_both_configured_witness :
    ("out" : String) ≠ ""
    ∧ fileRedirectionConfigured
        (SetFileRedirection
          (SetConsoleOutputBuffer initialState (some 1)
            ConsoleOutputOption.MERGE_STDOUT_STDERR)
          "" "out" "" ConsoleOutputOption.STDOUT_ONLY) = true
    ∧ bufferRedirectionConfigured
        (SetFileRedirection
          (SetConsoleOutputBuffer initialState (some 1)
            ConsoleOutputOption.MERGE_STDOUT_STDERR)
          "" "out" "" ConsoleOutputOption.STDOUT_ONLY) = true :=
  ⟨by decide,
   (mixed_redirection_both_configured initialState "" "out" ""
      ConsoleOutputOption.MERGE_STDOUT_STDERR ConsoleOutputOption.STDOUT_ONLY 1
      (by decide)).1,
   (mixed_redirection_both_configured initialState "" "out" ""
      ConsoleOutputOption.MERGE_STDOUT_STDERR ConsoleOutputOption.STDOUT_ONLY 1
      (by decide)).2.1⟩

/-- Claim C3: Kill returns true iff the process was still running at the time
of the call; on a terminal state it is a no-op returning false, a second
consecutive Kill always returns false, and Kill in the Unstarted state never
returns true. -/
theorem kill_contract (s : ProcessState) :
    ((kill s).fst = true ↔ s = ProcessState.Running)
    ∧ (isTerminal s = true → (kill s).fst = false ∧ (kill s).snd = s)
    ∧ (kill ((kill s).snd)).fst = false
    ∧ (kill ProcessState.Unstarted).fst = false := by
  cases s <;> decide

/-- Witness for Claim C3 at the terminal state Killed. -/
theorem kill_contract_witness :
    isTerminal ProcessState.Killed = true
    ∧ (kill ProcessState.Killed).fst = false
    ∧ (kill ProcessState.Killed).snd = ProcessState.Killed :=
  ⟨by decide,
   ((kill_contract ProcessState.Killed).2.1 (by decide)).1,
   ((kill_contract ProcessState.Killed).2.1 (by decide)).2⟩

/-- Claim C4: Wait returns true iff the process is still running after the
call; NEED_KILL on a running process drives it to a terminal state and
returns false; WAIT_INFINITE leaves the process in a terminal state whenever a
process was started. -/
theorem wait_contract (p : WaitPolicy) (s o : ProcessState)
    (h : isTerminal o = true) :
    ((wait p s o).fst = true ↔ (wait p s o).snd = ProcessState.Running)
    ∧ (s = ProcessState.Running →
        (wait WaitPolicy.NEED_KILL s o).fst = false
        ∧ isTerminal (wait WaitPolicy.NEED_KILL s o).snd = true)
    ∧ (s ≠ ProcessState.Unstarted →
        isTerminal (wait WaitPolicy.WAIT_INFINITE s o).snd = true
        ∧ (wait WaitPolicy.WAIT_INFINITE s o).fst = false) := by
  cases p <;> cases s <;> cases o <;> revert h <;> decide

/-- Witness for Claim C4: NEED_KILL on a running process, with Exited as the
terminal outcome used for blocking waits. -/
theorem wait_contract_witness :
    isTerminal ProcessState.Exited = true
    ∧ (wait WaitPolicy.NEED_KILL ProcessState.Running ProcessState.Exited).fst = false
    ∧ isTerminal
        (wait WaitPolicy.NEED_KILL ProcessState.Running ProcessState.Exited).snd = true :=
  ⟨by decide,
   ((wait_contract WaitPolicy.NEED_KILL ProcessState.Running ProcessState.Exited
      (by decide)).2.1 rfl).1,
   ((wait_contract WaitPolicy.NEED_KILL ProcessState.Running ProcessState.Exited
      (by decide)).2.1 rfl).2⟩

/-- Claim C5: the invalid pid sentinel is 0 on Windows and -1 on POSIX, and a
successful Run returns the spawned pid, which, being a real process id, never
equals the sentinel of any platform. -/
theorem kInvalidPid_never_collides (platform : Platform) (pid : Int)
    (h : isRealPid pid = true) :
    kInvalidPid Platform.windows = 0
    ∧ kInvalidPid Platform.posix = -1
    ∧ runContract platform (SpawnOutcome.success pid) = RunResult.returns pid
    ∧ pid ≠ kInvalidPid platform := by
  refine ⟨rfl, rfl, rfl, ?_⟩
  have hpos : 0 < pid := of_decide_eq_true h
  cases platform <;> simp [kInvalidPid] <;> omega

/-- Witness for Claim C5 at pid 42 on POSIX. -/
theorem kInvalidPid_never_collides_witness :
    isRealPid 42 = true ∧ (42 : Int) ≠ kInvalidPid Platform.posix :=
  ⟨by decide,
   (kInvalidPid_never_collides Platform.posix 42 (by decide)).2.2.2⟩

/-- Claim C6 counterexample: SetUmask stores the value 0, a non-negative
value, but the documented contract applies only positive values, so a zero
umask is not applied to the child on POSIX. -/
theorem umask_zero_not_applied :
    (SetUmask initialState 0).umask_ = 0
    ∧ umaskApplied Platform.posix (SetUmask initialState 0) = false :=
  ⟨rfl, by decide⟩

/-- Claim C6 amended: SetUmask stores any value; on POSIX the stored value is
applied to the child iff it is positive, so zero and negative values are not
applied; on platforms without the concept it is ignored, which is not an
error. -/
theorem umask_applied_iff_positive (s : SpawnerState) (v : Int) :
    (SetUmask s v).umask_ = v
    ∧ umaskApplied Platform.posix (SetUmask s v) = decide (0 < v)
    ∧ umaskApplied Platform.windows (SetUmask s v) = false :=
  ⟨rfl, rfl, rfl⟩

/-- Claim C7: terminal states are sticky: no lifecycle transition leaves a
terminal state, IsChildRunning never reports running there, and Kill and Wait
leave the state unchanged and report it not running, so all subsequent
queries return cached values. -/
theorem terminal_states_sticky (s : ProcessState) (h : isTerminal s = true) :
    (∀ t, ¬ lifecycleStep s t)
    ∧ isChildRunning s = false
    ∧ (kill s).snd = s
    ∧ (∀ p o, (wait p s o).snd = s ∧ (wait p s o).fst = false) := by
  cases s <;> first
    | exact absurd h (by decide)
    | exact ⟨fun t hstep => (nomatch hstep), by decide, rfl,
        fun p o => by cases p <;> exact ⟨rfl, rfl⟩⟩

/-- Witness for Claim C7 at the terminal state Signaled. -/
theorem terminal_states_sticky_witness :
    isTerminal ProcessState.Signaled = true
    ∧ isChildRunning ProcessState.Signaled = false
    ∧ ¬ lifecycleStep ProcessState.Signaled ProcessState.Running :=
  ⟨by decide,
   (terminal_states_sticky ProcessState.Signaled (by decide)).2.1,
   (terminal_states_sticky ProcessState.Signaled (by decide)).1 ProcessState.Running⟩

end devtools_goma
